import Mathlib

/-!
Verification of the spectrometer core (acquisition → ROI profile →
axis transform → two-point calibration) of `src/main.py`.

Frames are modelled as row-major lists of rows of natural-number
intensities (the 8-bit range plays no role in the claims); real-valued
pixel coordinates, wavelengths and means are modelled as rationals.
-/

/-- A grayscale frame: row-major list of rows of intensity samples
(`numpy` 2-D array in the source). -/
abbrev Frame := List (List Nat)

/-- Number of rows of a frame (`gray.shape[0]`). -/
def frameHeight (f : Frame) : Nat := f.length

/-- Number of columns of a frame (`gray.shape[1]`), read off the first row. -/
def frameWidth (f : Frame) : Nat := (f.headD []).length

/-- Horizontal flip, `cv2.flip(frame, 1)`: reverse each row. -/
def flipH (f : Frame) : Frame := f.map List.reverse

/-- Vertical flip, `cv2.flip(frame, 0)`: reverse the order of the rows. -/
def flipV (f : Frame) : Frame := f.reverse

/-- A 180° rotation: reverse the rows and each row. -/
def rot180 (f : Frame) : Frame := (f.map List.reverse).reverse

/-- `Webcam.read` (src/main.py lines 36–44): the device either fails to
deliver a frame (the method raises `RuntimeError("Frame non disponibile")`)
or delivers one, to which the two flips are applied in the fixed order
horizontal first, vertical second. -/
def webcamRead (flip_h flip_v : Bool) (raw : Option Frame) : Except String Frame :=
  match raw with
  | none => .error "Frame non disponibile"
  | some frame =>
    let f1 := if flip_h then flipH frame else frame
    let f2 := if flip_v then flipV f1 else f1
    .ok f2

/-- A rectangular region of interest: float-precision top-left corner and
size in frame pixel coordinates (the `pg.RectROI` state). -/
structure Region where
  x : ℚ
  y : ℚ
  w : ℚ
  h : ℚ
deriving DecidableEq, Repr

/-- Left edge of the region clamped to the frame (`max 0 r.x`). -/
def clampX0 (r : Region) : ℚ := max 0 r.x

/-- Top edge of the region clamped to the frame (`max 0 r.y`). -/
def clampY0 (r : Region) : ℚ := max 0 r.y

/-- Right edge of the region clamped to the frame. -/
def clampX1 (f : Frame) (r : Region) : ℚ := min (frameWidth f : ℚ) (r.x + r.w)

/-- Bottom edge of the region clamped to the frame. -/
def clampY1 (f : Frame) (r : Region) : ℚ := min (frameHeight f : ℚ) (r.y + r.h)

/-- Number of integer columns of the clamped region. -/
def roiCols (f : Frame) (r : Region) : ℤ := round (clampX1 f r - clampX0 r)

/-- Number of integer rows of the clamped region. -/
def roiRows (f : Frame) (r : Region) : ℤ := round (clampY1 f r - clampY0 r)

/-- Intensity sample of frame `f` at row `ri`, column `ci` (0 outside). -/
def sampleAt (f : Frame) (ri ci : Nat) : Nat := (f.getD ri []).getD ci 0

/-- Sum of the samples of column `ci` over `nrows` rows starting at row `r0`. -/
def colSum (f : Frame) (r0 nrows ci : Nat) : ℚ :=
  ((List.range nrows).map (fun i => (sampleAt f (r0 + i) ci : ℚ))).sum

/-- Arithmetic mean of the samples of column `ci` over `nrows` rows starting
at row `r0`, accumulated in exact (here rational) arithmetic. -/
def colMean (f : Frame) (r0 nrows ci : Nat) : ℚ :=
  colSum f r0 nrows ci / (nrows : ℚ)

/-- Modelled from the spec: the ROI extraction
`self.roi.getArrayRegion(gray, ...)` of src/main.py line 146 is performed by
the external pyqtgraph collaborator, whose code is not part of this
repository; §4.2 of the spec fixes its contract.  The region is clamped to
`[0,0]..[frame.width, frame.height]`; if the clamped region spans no integer
column or no integer row the result is `Empty` (`none`); otherwise the
result is the profile `roi_img.mean(axis=0)` (line 149 of the source): one
rational per column of the clamped region, the arithmetic mean of that
column's samples over the region's row span, indexed left-to-right within
the region.  Column counts are integer-rounded per §3/§8 of the spec
("Length equals the region's pixel width (rounded ... to integer columns)",
"`reduce(F,R).length == round(R.width)`"). -/
def reduce (f : Frame) (r : Region) : Option (List ℚ) :=
  if roiCols f r ≤ 0 ∨ roiRows f r ≤ 0 then none
  else
    let c0 := (round (clampX0 r)).toNat
    let r0 := (round (clampY0 r)).toNat
    some ((List.range (roiCols f r).toNat).map
      (fun c => colMean f r0 (roiRows f r).toNat (c0 + c)))

/-- The calibration state of the GUI: the source keeps a boolean
`calib_set` flag (line 87) together with `slope`/`intercept` attributes that
exist only after the first successful `apply_calib`; this is exactly the
tagged variant `Unset | Linear{slope, intercept}`. -/
inductive CalibModel where
  | Unset : CalibModel
  | Linear (slope intercept : ℚ) : CalibModel
deriving DecidableEq, Repr

/-- `px_to_nm` (src/main.py line 167): the installed linear map
`slope * px + intercept`; on `Unset` there is no installed map and the
source never calls it (returns 0 here, unreachable in the pipeline). -/
def applyTo (m : CalibModel) (px : ℚ) : ℚ :=
  match m with
  | .Unset => 0
  | .Linear slope intercept => slope * px + intercept

/-- The x-axis for a profile of length `n` (src/main.py lines 150–152):
`np.arange(len(spec))`, mapped through `px_to_nm` when calibrated. -/
def axis_for : Nat → CalibModel → List ℚ
  | n, .Unset => (List.range n).map (fun (i : ℕ) => (i : ℚ))
  | n, .Linear slope intercept =>
    (List.range n).map (fun (i : ℕ) => slope * (i : ℚ) + intercept)

/-- The axis label pushed to the plot (src/main.py lines 153, 155). -/
def axisLabelOf (m : CalibModel) : String :=
  match m with
  | .Unset => "Pixel"
  | .Linear _ _ => "Wavelength"

/-- The mutable state of `SpectrometerGUI` visible to the core pipeline:
the ROI rectangle, the flip checkboxes, the two calibration cursors
(`l1`, `l2`), the two wavelength spin boxes (`spin_l1`, `spin_l2`), the
calibration model (`calib_set` + `slope` + `intercept`), and the display
collaborator's retained frame image, curve and axis label. -/
structure GuiState where
  roi : Region
  flip_h : Bool
  flip_v : Bool
  l1 : ℚ
  l2 : ℚ
  spin_l1 : ℚ
  spin_l2 : ℚ
  model : CalibModel
  dispFrame : Option Frame
  dispCurve : Option (List ℚ × List ℚ)
  axisLabel : String
deriving DecidableEq, Repr

/-- The initial GUI state (src/main.py lines 74, 87, 126): ROI at
(200,200) size (200,100), flips off, calibration unset, default
wavelengths 436 nm and 546 nm, nothing displayed yet; the cursors start at
pyqtgraph's `InfiniteLine` default position 0, distinct here for the sake
of concreteness. -/
def initState : GuiState :=
  { roi := ⟨200, 200, 200, 100⟩
    flip_h := false
    flip_v := false
    l1 := 0
    l2 := 1
    spin_l1 := 436
    spin_l2 := 546
    model := .Unset
    dispFrame := none
    dispCurve := none
    axisLabel := "Pixel" }

/-- `SpectrometerGUI.update_frame` (src/main.py lines 141–156), one render
tick.  `self.cam.read()` is the first statement and is not wrapped in any
try/except, so an acquisition failure propagates out of the handler before
any display mutation (`.error`).  On success the frame image is set first
(line 144), then the ROI is reduced; an empty reduction returns early
(lines 147–148), keeping the previous curve and axis label; otherwise the
axis is computed from the calibration model and the curve and label are
updated (lines 150–156). -/
def update_frame : Except String Frame → GuiState → Except String GuiState
  | .error e, _ => .error e
  | .ok gray, s =>
    (reduce gray s.roi).elim
      (Except.ok { s with dispFrame := some gray })
      (fun spec =>
        Except.ok { s with dispFrame := some gray,
                           dispCurve := some (axis_for spec.length s.model, spec),
                           axisLabel := axisLabelOf s.model })

/-- `SpectrometerGUI.apply_calib` (src/main.py lines 159–168): read the two
cursor pixel positions and the two entered wavelengths; if the pixel
positions coincide, return without touching anything; otherwise install
`slope = (λ2 - λ1) / (px2 - px1)`, `intercept = λ1 - slope * px1` as the
active model and set the calibrated flag. -/
def apply_calib (s : GuiState) : GuiState :=
  if s.l1 = s.l2 then s
  else
    let slope := (s.spin_l2 - s.spin_l1) / (s.l2 - s.l1)
    let intercept := s.spin_l1 - slope * s.l1
    { s with model := .Linear slope intercept }

/-- The operator/timer events that can reach the GUI state between and
during ticks: a timer tick carrying the acquisition result, an ROI edit, a
flip-checkbox change (`_set_flip`), a cursor drag, a wavelength edit, and
the "Applica calibrazione" button (`apply_calib`). -/
inductive Op where
  | tick (camFrame : Except String Frame)
  | setRoi (r : Region)
  | setFlips (fh fv : Bool)
  | moveCursors (p1 p2 : ℚ)
  | editWavelengths (w1 w2 : ℚ)
  | applyCalib
deriving Repr

/-- One step of the event loop.  A tick whose acquisition fails raises out
of the handler before any state mutation, so the state is unchanged. -/
def step (op : Op) (s : GuiState) : GuiState :=
  match op with
  | .tick camFrame =>
    match update_frame camFrame s with
    | .ok s1 => s1
    | .error _ => s
  | .setRoi r => { s with roi := r }
  | .setFlips fh fv => { s with flip_h := fh, flip_v := fv }
  | .moveCursors p1 p2 => { s with l1 := p1, l2 := p2 }
  | .editWavelengths w1 w2 => { s with spin_l1 := w1, spin_l2 := w2 }
  | .applyCalib => apply_calib s

/-- Running a sequence of events from a state. -/
def run (ops : List Op) (s : GuiState) : GuiState :=
  ops.foldl (fun s op => step op s) s

/-- Scenario-2 frame: 4 rows, each `[0, 10, 20, ..., 90]` (column `c` has
constant value `10 * c`). -/
def frame4x10 : Frame :=
  [[0, 10, 20, 30, 40, 50, 60, 70, 80, 90],
   [0, 10, 20, 30, 40, 50, 60, 70, 80, 90],
   [0, 10, 20, 30, 40, 50, 60, 70, 80, 90],
   [0, 10, 20, 30, 40, 50, 60, 70, 80, 90]]

/-- A state with calibration already applied (`calib_set` true). -/
def linearState : GuiState := { initState with model := .Linear (11/20) 381 }

/-- A state whose ROI is exactly scenario 2's region (0,0,10,4). -/
def profState : GuiState := { initState with roi := ⟨0, 0, 10, 4⟩ }

/-- Scenario-4 state: both calibration cursors at pixel 150. -/
def coincidentState : GuiState := { initState with l1 := 150, l2 := 150 }

/-- Scenario-3 state: cursors at pixels 100 and 300, wavelengths at the
default 436 nm and 546 nm. -/
def calibScenarioState : GuiState := { initState with l1 := 100, l2 := 300 }

/-- A state whose ROI is narrower than half a pixel column, so that its
reduction is empty. -/
def narrowRoiState : GuiState :=
  { initState with roi := ⟨0, 0, 3/10, 4⟩, dispCurve := some ([1], [2]),
                   axisLabel := "Pixel" }

/-- Element `c` of a map over `List.range`. -/
theorem getD_map_range (n : ℕ) (g : ℕ → ℚ) (c : ℕ) (h : c < n) :
    ((List.range n).map g).getD c 0 = g c := by
  have hlen : c < ((List.range n).map g).length := by simpa using h
  rw [List.getD_eq_getElem _ _ hlen]
  simp

/-- A nonpositive rational rounds to a nonpositive integer. -/
theorem round_nonpos_of_nonpos (q : ℚ) (h : q ≤ 0) : round q ≤ 0 := by
  rw [round_eq]
  calc ⌊q + 1/2⌋ ≤ ⌊(0 : ℚ) + 1/2⌋ := Int.floor_le_floor (by linarith)
    _ = 0 := by norm_num

/-- A tick whose reduction is empty updates only the displayed frame. -/
theorem update_frame_none (gray : Frame) (s : GuiState)
    (h : reduce gray s.roi = none) :
    update_frame (Except.ok gray) s =
      Except.ok { s with dispFrame := some gray } := by
  simp only [update_frame, h, Option.elim]

/-- A tick whose reduction yields a profile updates the displayed frame,
the curve and the axis label. -/
theorem update_frame_some (gray : Frame) (s : GuiState) (spec : List ℚ)
    (h : reduce gray s.roi = some spec) :
    update_frame (Except.ok gray) s =
      Except.ok { s with dispFrame := some gray,
                         dispCurve := some (axis_for spec.length s.model, spec),
                         axisLabel := axisLabelOf s.model } := by
  simp only [update_frame, h, Option.elim]

/-- A successful tick always returns `ok`; its result keeps every control
field of the state and displays the new frame. -/
theorem update_frame_ok (gray : Frame) (s : GuiState) :
    ∃ s1 : GuiState, update_frame (Except.ok gray) s = Except.ok s1 ∧
      s1.roi = s.roi ∧ s1.flip_h = s.flip_h ∧ s1.flip_v = s.flip_v ∧
      s1.l1 = s.l1 ∧ s1.l2 = s.l2 ∧ s1.spin_l1 = s.spin_l1 ∧
      s1.spin_l2 = s.spin_l2 ∧ s1.model = s.model ∧
      s1.dispFrame = some gray := by
  cases hr : reduce gray s.roi with
  | none =>
    exact ⟨_, update_frame_none gray s hr, rfl, rfl, rfl, rfl, rfl, rfl, rfl,
      rfl, rfl⟩
  | some spec =>
    exact ⟨_, update_frame_some gray s spec hr, rfl, rfl, rfl, rfl, rfl, rfl,
      rfl, rfl, rfl⟩

/-- C1: for every frame `F` and every region `R` fully inside `F` (with at
least one integer column and row), `reduce(F,R)` returns a Profile whose
length equals `round(R.width)` and whose `c`-th element is the arithmetic
mean of the intensities of column `c` of the region over the region's row
span. -/
theorem C1_reduce_profile (f : Frame) (r : Region)
    (hx : 0 ≤ r.x) (hy : 0 ≤ r.y)
    (hxw : r.x + r.w ≤ (frameWidth f : ℚ))
    (hyh : r.y + r.h ≤ (frameHeight f : ℚ))
    (hw : 0 < round r.w) (hh : 0 < round r.h) :
    ∃ p : List ℚ, reduce f r = some p ∧
      (p.length : ℤ) = round r.w ∧
      ∀ c : ℕ, c < p.length →
        p.getD c 0 =
          colMean f (round r.y).toNat (round r.h).toNat
            ((round r.x).toNat + c) := by
  have h0 : clampX0 r = r.x := max_eq_right hx
  have hy0 : clampY0 r = r.y := max_eq_right hy
  have h1 : clampX1 f r = r.x + r.w := min_eq_right hxw
  have hy1 : clampY1 f r = r.y + r.h := min_eq_right hyh
  have hcols : roiCols f r = round r.w := by
    rw [roiCols, h0, h1, add_sub_cancel_left]
  have hrows : roiRows f r = round r.h := by
    rw [roiRows, hy0, hy1, add_sub_cancel_left]
  have hcond : ¬(roiCols f r ≤ 0 ∨ roiRows f r ≤ 0) := by
    rw [hcols, hrows]
    push_neg
    exact ⟨hw, hh⟩
  have hred : reduce f r =
      some ((List.range (round r.w).toNat).map
        (fun c => colMean f (round r.y).toNat (round r.h).toNat
          ((round r.x).toNat + c))) := by
    unfold reduce
    rw [if_neg hcond, hcols, hrows, h0, hy0]
  refine ⟨_, hred, ?_, ?_⟩
  · simp [Int.toNat_of_nonneg hw.le]
  · intro c hc
    have hc' : c < (round r.w).toNat := by simpa using hc
    exact getD_map_range _ _ _ hc'

/-- C1 witness: scenario 2 — region (0,0,10,4) over a frame where column
`c` has constant value `10*c` yields the Profile `[0,10,...,90]`, and the
general theorem instantiates there. -/
theorem C1_reduce_profile_witness :
    reduce frame4x10 ⟨0, 0, 10, 4⟩ =
      some [0, 10, 20, 30, 40, 50, 60, 70, 80, 90] ∧
    (0 : ℚ) ≤ 0 ∧
    (∃ p : List ℚ, reduce frame4x10 ⟨0, 0, 10, 4⟩ = some p ∧
      (p.length : ℤ) = round (10 : ℚ) ∧
      ∀ c : ℕ, c < p.length →
        p.getD c 0 =
          colMean frame4x10 (round (0 : ℚ)).toNat (round (4 : ℚ)).toNat
            ((round (0 : ℚ)).toNat + c)) := by
  refine ⟨?_, le_refl 0, ?_⟩
  · norm_num [reduce, roiCols, roiRows, clampX0, clampX1, clampY0, clampY1,
      frameWidth, frameHeight, frame4x10, round_eq, colMean, colSum, sampleAt,
      List.range_succ, show Int.toNat 4 = 4 from rfl,
      show Int.toNat 10 = 10 from rfl]
  · exact C1_reduce_profile frame4x10 ⟨0, 0, 10, 4⟩ (by norm_num) (by norm_num)
      (by norm_num [frameWidth, frame4x10]) (by norm_num [frameHeight, frame4x10])
      (by norm_num [round_eq]) (by norm_num [round_eq])

/-- C2: for every pair of calibration points with distinct pixel
positions, the apply action installs the model with
`slope = (w2 - w1) / (p2 - p1)` and `intercept = w1 - slope * p1`, and the
installed map sends `p1` to `w1` and `p2` to `w2` exactly. -/
theorem C2_two_point_fit (s : GuiState) (h : s.l1 ≠ s.l2) :
    (apply_calib s).model =
      CalibModel.Linear ((s.spin_l2 - s.spin_l1) / (s.l2 - s.l1))
        (s.spin_l1 - (s.spin_l2 - s.spin_l1) / (s.l2 - s.l1) * s.l1) ∧
    applyTo (apply_calib s).model s.l1 = s.spin_l1 ∧
    applyTo (apply_calib s).model s.l2 = s.spin_l2 := by
  have hne : s.l2 - s.l1 ≠ 0 := sub_ne_zero.mpr (Ne.symm h)
  refine ⟨by simp [apply_calib, h], ?_, ?_⟩
  · simp [apply_calib, h, applyTo]
  · simp [apply_calib, h, applyTo]
    field_simp
    ring

/-- C2 witness: scenario 3 — points (pixel=100, λ=436) and
(pixel=300, λ=546) give slope 0.55 (= 11/20), intercept 381, and the map
sends 100 ↦ 436, 300 ↦ 546 and 200 ↦ 491. -/
theorem C2_two_point_fit_witness :
    (apply_calib calibScenarioState).model =
      CalibModel.Linear (11/20) 381 ∧
    applyTo (apply_calib calibScenarioState).model 100 = 436 ∧
    applyTo (apply_calib calibScenarioState).model 300 = 546 ∧
    applyTo (apply_calib calibScenarioState).model 200 = 491 := by
  obtain ⟨hm, h1, h2⟩ :=
    C2_two_point_fit calibScenarioState
      (by norm_num [calibScenarioState, initState])
  refine ⟨?_, ?_, ?_, ?_⟩
  · rw [hm]
    norm_num [calibScenarioState, initState]
  · simpa [calibScenarioState, initState] using h1
  · simpa [calibScenarioState, initState] using h2
  · rw [hm]
    norm_num [applyTo, calibScenarioState, initState]

/-- The apply action is a no-op on coincident cursors. -/
theorem apply_calib_coincident (s : GuiState) (h : s.l1 = s.l2) :
    apply_calib s = s := by
  simp [apply_calib, h]

/-- C3: when the two calibration points have exactly equal pixel
positions, the apply action is rejected and the whole state — in
particular the calibration model — is unchanged. -/
theorem C3_reject_coincident (s : GuiState) (h : s.l1 = s.l2) :
    apply_calib s = s :=
  apply_calib_coincident s h

/-- C3 witness: scenario 4 — both cursors at pixel 150 ⇒ the apply action
is a no-op and the model remains `Unset`. -/
theorem C3_reject_coincident_witness :
    apply_calib coincidentState = coincidentState ∧
    (apply_calib coincidentState).model = CalibModel.Unset := by
  have h := C3_reject_coincident coincidentState rfl
  exact ⟨h, by rw [h]; rfl⟩

/-- C4: for a profile of length `n`, the axis is `[0,...,n-1]` when the
model is `Unset` and `[slope*i + intercept]_{i<n}` when `Linear`; the axis
label produced by a successful tick matches the model state ("Pixel" for
`Unset`, "Wavelength" for `Linear`). -/
theorem C4_axis_transform (n : ℕ) (m : CalibModel) (a b : ℚ) (i : ℕ)
    (hi : i < n) (s : GuiState) (gray : Frame) (p : List ℚ)
    (hred : reduce gray s.roi = some p) :
    (axis_for n m).length = n ∧
    axis_for n CalibModel.Unset = (List.range n).map (fun (j : ℕ) => (j : ℚ)) ∧
    (axis_for n (CalibModel.Linear a b)).getD i 0 = a * (i : ℚ) + b ∧
    (step (Op.tick (Except.ok gray)) s).axisLabel = axisLabelOf s.model ∧
    axisLabelOf CalibModel.Unset = "Pixel" ∧
    axisLabelOf (CalibModel.Linear a b) = "Wavelength" := by
  refine ⟨?_, rfl, ?_, ?_, rfl, rfl⟩
  · cases m <;> simp [axis_for]
  · exact getD_map_range n (fun j : ℕ => a * (j : ℚ) + b) i hi
  · simp [step, update_frame_some gray s p hred]

/-- C4 witness: a 3-sample profile under the model `Linear 2 5` has axis
element `2*1 + 5` at index 1, the unset axis is `[0,1,2]`, and a tick on
scenario 2's state updates the label according to the (unset) model. -/
theorem C4_axis_transform_witness :
    (axis_for 3 (CalibModel.Linear 2 5)).length = 3 ∧
    axis_for 3 CalibModel.Unset = (List.range 3).map (fun (j : ℕ) => (j : ℚ)) ∧
    (axis_for 3 (CalibModel.Linear 2 5)).getD 1 0 = 2 * (1 : ℚ) + 5 ∧
    (step (Op.tick (Except.ok frame4x10)) profState).axisLabel =
      axisLabelOf profState.model ∧
    axisLabelOf CalibModel.Unset = "Pixel" ∧
    axisLabelOf (CalibModel.Linear 2 5) = "Wavelength" := by
  exact C4_axis_transform 3 (CalibModel.Linear 2 5) 2 5 1 (by norm_num)
    profState frame4x10 [0, 10, 20, 30, 40, 50, 60, 70, 80, 90]
    (by norm_num [reduce, roiCols, roiRows, clampX0, clampX1, clampY0,
      clampY1, frameWidth, frameHeight, frame4x10, profState, initState,
      round_eq, colMean, colSum, sampleAt, List.range_succ,
      show Int.toNat 4 = 4 from rfl, show Int.toNat 10 = 10 from rfl])

/-- C5 counterexample: the claim says a tick on which acquisition fails is
"skipped without crashing"; in the code `update_frame` has no handler
around `self.cam.read()`, so the tick does not return normally — at the
initial state the tick handler propagates the `RuntimeError` instead of
returning `ok` with the state retained. -/
theorem C5_tick_not_ok :
    ¬ ∃ s1 : GuiState,
      update_frame (Except.error "Frame non disponibile") initState =
        Except.ok s1 := by
  rintro ⟨s1, hs1⟩
  rw [show update_frame (Except.error "Frame non disponibile") initState =
        Except.error "Frame non disponibile" from rfl] at hs1
  exact Except.noConfusion hs1

/-- C5 (amended): on an acquisition failure the tick performs no display
update — the error propagates out of `update_frame` before any mutation,
so the previously displayed curve and frame are retained — but the error
is not caught inside the tick handler: `update_frame` surfaces it to the
caller rather than returning normally. -/
theorem C5_error_propagates (e : String) (s : GuiState) :
    update_frame (Except.error e) s = Except.error e ∧
    step (Op.tick (Except.error e)) s = s := by
  exact ⟨rfl, rfl⟩

/-- C6: a region whose clamped width or height is zero or negative (and,
in this rounding model, any region spanning no integer column) reduces to
`Empty`, and a tick whose reduction is `Empty` performs no curve update —
only the displayed frame changes. -/
theorem C6_empty_region (f : Frame) (r : Region) (s : GuiState)
    (gray : Frame)
    (harea : clampX1 f r - clampX0 r ≤ 0 ∨ clampY1 f r - clampY0 r ≤ 0)
    (hempty : reduce gray s.roi = none) :
    reduce f r = none ∧
    update_frame (Except.ok gray) s =
      Except.ok { s with dispFrame := some gray } ∧
    (step (Op.tick (Except.ok gray)) s).dispCurve = s.dispCurve := by
  have hcond : roiCols f r ≤ 0 ∨ roiRows f r ≤ 0 := by
    rcases harea with hw | hh
    · exact Or.inl (round_nonpos_of_nonpos _ hw)
    · exact Or.inr (round_nonpos_of_nonpos _ hh)
  refine ⟨?_, update_frame_none gray s hempty, ?_⟩
  · unfold reduce
    rw [if_pos hcond]
  · simp [step, update_frame_none gray s hempty]

/-- C6 witness: the zero-width region (0,0,0,4) over the scenario-2 frame
reduces to `Empty`, and a tick on a state whose ROI is narrower than half
a pixel column leaves the previous curve in place. -/
theorem C6_empty_region_witness :
    reduce frame4x10 ⟨0, 0, 0, 4⟩ = none ∧
    update_frame (Except.ok frame4x10) narrowRoiState =
      Except.ok { narrowRoiState with dispFrame := some frame4x10 } ∧
    (step (Op.tick (Except.ok frame4x10)) narrowRoiState).dispCurve =
      narrowRoiState.dispCurve := by
  exact C6_empty_region frame4x10 ⟨0, 0, 0, 4⟩ narrowRoiState frame4x10
    (Or.inl (by norm_num [clampX1, clampX0, frameWidth, frame4x10]))
    (by norm_num [reduce, roiCols, roiRows, clampX0, clampX1, clampY0,
      clampY1, frameWidth, frameHeight, frame4x10, narrowRoiState,
      initState, round_eq])

/-- C7: horizontal flip is an involution; the two flips are applied in the
fixed order horizontal then vertical by `Webcam.read`, and both flips
together equal a 180° rotation, in either composition order. -/
theorem C7_flip_composition (f g : Frame) :
    flipH (flipH f) = f ∧
    webcamRead true true (some g) = Except.ok (flipV (flipH g)) ∧
    flipV (flipH f) = rot180 f ∧
    flipH (flipV f) = rot180 f := by
  refine ⟨?_, rfl, rfl, ?_⟩
  · simp [flipH, List.map_map, Function.comp_def]
  · simp [flipH, flipV, rot180, List.map_reverse]

/-- A tick never changes the calibration model. -/
theorem step_tick_model (c : Except String Frame) (s : GuiState) :
    (step (Op.tick c) s).model = s.model := by
  cases c with
  | error e => rfl
  | ok gray =>
    obtain ⟨s1, h1, _, _, _, _, _, _, _, hm, _⟩ := update_frame_ok gray s
    simp only [step, h1]
    exact hm

/-- No operation un-installs a calibration. -/
theorem step_model_stays (op : Op) (s : GuiState)
    (h : s.model ≠ CalibModel.Unset) :
    (step op s).model ≠ CalibModel.Unset := by
  cases op with
  | tick c => rw [step_tick_model]; exact h
  | setRoi r => exact h
  | setFlips fh fv => exact h
  | moveCursors p1 p2 => exact h
  | editWavelengths w1 w2 => exact h
  | applyCalib =>
    by_cases hl : s.l1 = s.l2
    · simpa [step, apply_calib, hl] using h
    · simp [step, apply_calib, hl]

/-- No sequence of operations un-installs a calibration. -/
theorem run_model_stays (ops : List Op) (s : GuiState)
    (h : s.model ≠ CalibModel.Unset) :
    (run ops s).model ≠ CalibModel.Unset := by
  induction ops generalizing s with
  | nil => exact h
  | cons op ops ih => exact ih (step op s) (step_model_stays op s h)

/-- C8: the calibration model leaves `Unset` only through an explicit
apply action with distinct cursor pixel positions, and once `Linear` it
never returns to `Unset` under any reachable sequence of operations. -/
theorem C8_calib_permanent :
    (∀ (op : Op) (s : GuiState), s.model ≠ CalibModel.Unset →
      (step op s).model ≠ CalibModel.Unset) ∧
    (∀ (ops : List Op) (s : GuiState), s.model ≠ CalibModel.Unset →
      (run ops s).model ≠ CalibModel.Unset) ∧
    (∀ (op : Op) (s : GuiState), s.model = CalibModel.Unset →
      (step op s).model ≠ CalibModel.Unset →
      op = Op.applyCalib ∧ s.l1 ≠ s.l2) := by
  refine ⟨step_model_stays, run_model_stays, ?_⟩
  intro op s hU hL
  cases op with
  | tick c => rw [step_tick_model] at hL; exact absurd hU hL
  | setRoi r => exact absurd hU hL
  | setFlips fh fv => exact absurd hU hL
  | moveCursors p1 p2 => exact absurd hU hL
  | editWavelengths w1 w2 => exact absurd hU hL
  | applyCalib =>
    by_cases hl : s.l1 = s.l2
    · rw [show step Op.applyCalib s = apply_calib s from rfl,
        apply_calib_coincident s hl] at hL
      exact absurd hU hL
    · exact ⟨rfl, hl⟩

/-- C8 witness: from a calibrated state, a concrete sequence of ROI edits,
cursor moves, a further apply and a failing tick still leaves the model
calibrated; and from the uncalibrated scenario-3 state, the only
model-installing step is the apply action with its distinct cursors. -/
theorem C8_calib_permanent_witness :
    (run [Op.setRoi ⟨0, 0, 1, 1⟩, Op.moveCursors 5 5, Op.applyCalib,
          Op.tick (Except.error "Frame non disponibile")]
        linearState).model ≠ CalibModel.Unset ∧
    (Op.applyCalib = Op.applyCalib ∧
      calibScenarioState.l1 ≠ calibScenarioState.l2) := by
  constructor
  · exact C8_calib_permanent.2.1 _ linearState
      (by simp [linearState, initState])
  · exact C8_calib_permanent.2.2 Op.applyCalib calibScenarioState rfl
      (by norm_num [step, apply_calib, calibScenarioState, initState]
          exact fun h => CalibModel.noConfusion h)

/-- C9: on a tick where the frame is acquired but the reduction is
`Empty`, the displayed frame is still replaced by the new frame, while the
curve and the axis label keep their previous values. -/
theorem C9_frame_updated_on_empty (s : GuiState) (gray : Frame)
    (h : reduce gray s.roi = none) :
    update_frame (Except.ok gray) s =
      Except.ok { s with dispFrame := some gray } ∧
    (step (Op.tick (Except.ok gray)) s).dispFrame = some gray ∧
    (step (Op.tick (Except.ok gray)) s).dispCurve = s.dispCurve ∧
    (step (Op.tick (Except.ok gray)) s).axisLabel = s.axisLabel := by
  have h1 := update_frame_none gray s h
  refine ⟨h1, ?_, ?_, ?_⟩ <;> simp [step, h1]

/-- C9 witness: a tick of the scenario-2 frame on the narrow-ROI state
displays the new frame but keeps the old curve and label. -/
theorem C9_frame_updated_on_empty_witness :
    update_frame (Except.ok frame4x10) narrowRoiState =
      Except.ok { narrowRoiState with dispFrame := some frame4x10 } ∧
    (step (Op.tick (Except.ok frame4x10)) narrowRoiState).dispFrame =
      some frame4x10 ∧
    (step (Op.tick (Except.ok frame4x10)) narrowRoiState).dispCurve =
      narrowRoiState.dispCurve ∧
    (step (Op.tick (Except.ok frame4x10)) narrowRoiState).axisLabel =
      narrowRoiState.axisLabel := by
  exact C9_frame_updated_on_empty narrowRoiState frame4x10
    (by norm_num [reduce, roiCols, roiRows, clampX0, clampX1, clampY0,
      clampY1, frameWidth, frameHeight, frame4x10, narrowRoiState,
      initState, round_eq])

/-- C10: a successful apply reads the cursors and wavelengths at the
moment of the action and changes only the calibration model; every other
field — ROI, flips, cursors, wavelength inputs, displayed frame, curve and
label — is untouched, and later cursor moves or wavelength edits leave the
installed model unchanged. -/
theorem C10_apply_reads_at_action (s : GuiState) (h : s.l1 ≠ s.l2)
    (p1 p2 w1 w2 : ℚ) :
    (apply_calib s).model =
      CalibModel.Linear ((s.spin_l2 - s.spin_l1) / (s.l2 - s.l1))
        (s.spin_l1 - (s.spin_l2 - s.spin_l1) / (s.l2 - s.l1) * s.l1) ∧
    (apply_calib s).roi = s.roi ∧
    (apply_calib s).flip_h = s.flip_h ∧
    (apply_calib s).flip_v = s.flip_v ∧
    (apply_calib s).l1 = s.l1 ∧
    (apply_calib s).l2 = s.l2 ∧
    (apply_calib s).spin_l1 = s.spin_l1 ∧
    (apply_calib s).spin_l2 = s.spin_l2 ∧
    (apply_calib s).dispFrame = s.dispFrame ∧
    (apply_calib s).dispCurve = s.dispCurve ∧
    (apply_calib s).axisLabel = s.axisLabel ∧
    (step (Op.moveCursors p1 p2) (apply_calib s)).model =
      (apply_calib s).model ∧
    (step (Op.editWavelengths w1 w2) (apply_calib s)).model =
      (apply_calib s).model := by
  simp [apply_calib, h, step]

/-- C10 witness: applying on the scenario-3 state then moving the cursors
to 7 and 9 and re-entering wavelengths 500 and 600 does not change the
installed model, and the apply touched no other field. -/
theorem C10_apply_reads_at_action_witness :
    (apply_calib calibScenarioState).model =
      CalibModel.Linear
        ((calibScenarioState.spin_l2 - calibScenarioState.spin_l1) /
          (calibScenarioState.l2 - calibScenarioState.l1))
        (calibScenarioState.spin_l1 -
          (calibScenarioState.spin_l2 - calibScenarioState.spin_l1) /
            (calibScenarioState.l2 - calibScenarioState.l1) *
            calibScenarioState.l1) ∧
    (apply_calib calibScenarioState).roi = calibScenarioState.roi ∧
    (apply_calib calibScenarioState).flip_h = calibScenarioState.flip_h ∧
    (apply_calib calibScenarioState).flip_v = calibScenarioState.flip_v ∧
    (apply_calib calibScenarioState).l1 = calibScenarioState.l1 ∧
    (apply_calib calibScenarioState).l2 = calibScenarioState.l2 ∧
    (apply_calib calibScenarioState).spin_l1 = calibScenarioState.spin_l1 ∧
    (apply_calib calibScenarioState).spin_l2 = calibScenarioState.spin_l2 ∧
    (apply_calib calibScenarioState).dispFrame =
      calibScenarioState.dispFrame ∧
    (apply_calib calibScenarioState).dispCurve =
      calibScenarioState.dispCurve ∧
    (apply_calib calibScenarioState).axisLabel =
      calibScenarioState.axisLabel ∧
    (step (Op.moveCursors 7 9) (apply_calib calibScenarioState)).model =
      (apply_calib calibScenarioState).model ∧
    (step (Op.editWavelengths 500 600)
        (apply_calib calibScenarioState)).model =
      (apply_calib calibScenarioState).model := by
  exact C10_apply_reads_at_action calibScenarioState
    (by norm_num [calibScenarioState, initState]) 7 9 500 600

/-- C6 counterexample: a region narrower than one pixel column (width
7/10) does not yield `Empty` — it rounds to one integer column and yields
a one-sample profile, as forced by the `length == round(R.width)`
property. -/
theorem C6_narrow_counterexample :
    reduce frame4x10 ⟨0, 0, 7/10, 4⟩ = some [0] := by
  norm_num [reduce, roiCols, roiRows, clampX0, clampX1, clampY0, clampY1,
    frameWidth, frameHeight, frame4x10, round_eq, colMean, colSum, sampleAt,
    List.range_succ, show Int.toNat 4 = 4 from rfl,
    show Int.toNat 1 = 1 from rfl]
